import Mathlib

/-!
Verification of the batch audio-conversion driver in `src/convert_audio.py`.

The script is a linear driver: check the source directory, create the
output directory, list `*.mp3` files, convert each with an external
`ffmpeg.exe` subprocess, tally successes, print a summary, and choose
an exit code.  We embed it shallowly: the external world (filesystem
listing, directory existence, subprocess execution) is an explicit
environment, and `main` is a pure function from that environment to a
record of its observable effects (exit code, whether the output
directory was created, the attempted conversions with their per-file
logs, the tally, and the summary line).
-/

/-- Outcome of one external-process invocation, covering the cases the
Python code distinguishes: `subprocess.run` returning a
`CompletedProcess` (with a return code and captured stderr), raising
`subprocess.TimeoutExpired`, raising `FileNotFoundError` (executable
not resolvable), or raising any other exception. -/
inductive RunOutcome where
  | completed (returncode : Int) (stderr : String)
  | timedOut
  | fileNotFound
  | otherError (msg : String)
deriving DecidableEq

/-- The external-process invoker: a command line and a timeout (in
seconds) determine the outcome.  This models `subprocess.run(cmd,
capture_output=True, text=True, timeout=t)`. -/
abbrev Runner : Type := List String → Nat → RunOutcome

/-- A filesystem path as the script uses them: a directory joined with
a file name (`pathlib.Path` values of the form `dir / name`). -/
structure FsPath where
  dir : String
  name : String
deriving DecidableEq

/-- Rendering of a path as a string, modelling `str(path)`. -/
def FsPath.str (p : FsPath) : String := p.dir ++ "/" ++ p.name

/-- Result of `convert_audio_file`: the returned boolean together with
the console lines the function prints. -/
structure ConvResult where
  ok : Bool
  log : List String
deriving DecidableEq

/-- Embedding of `convert_audio_file(input_path, output_path)` from
`src/convert_audio.py` (lines 15 to 47).  It prints a progress line,
builds the fixed ffmpeg command, runs it with a 60 second timeout, and
classifies the outcome: return code 0 is success; a non-zero return
code, a timeout, a missing executable, or any other exception is a
failure with its own message.  The external invoker `run` is a
parameter. -/
def convert_audio_file (run : Runner) (input_path output_path : FsPath) :
    ConvResult :=
  let header := "Converting: " ++ input_path.name
  let cmd : List String :=
    ["ffmpeg.exe",
     "-i", input_path.str,
     "-ar", "44100",
     "-ac", "2",
     "-b:a", "192k",
     "-y",
     output_path.str]
  match run cmd 60 with
  | RunOutcome.completed rc stderr =>
      if rc = 0 then
        { ok := true, log := [header, "  ✓ Converted successfully"] }
      else
        { ok := false, log := [header, "  ✗ ffmpeg error: " ++ stderr] }
  | RunOutcome.timedOut =>
      { ok := false, log := [header, "  ✗ Conversion timed out"] }
  | RunOutcome.fileNotFound =>
      { ok := false,
        log := [header,
          "  ✗ ffmpeg not found. Make sure ffmpeg.exe is in your PATH or in the current directory"] }
  | RunOutcome.otherError e =>
      { ok := false, log := [header, "  ✗ Error: " ++ e] }

/-- The environment a run of `main` observes: whether the `music`
directory exists, the names of the entries directly inside it (in
enumeration order), and the external-process invoker. -/
structure Env where
  music_dir_exists : Bool
  music_files : List String
  run : Runner

/-- Observable effects of one run of `main`: the process exit code,
whether `public/music` was created, the list of attempted conversions
(input path, output path, per-file result) in order, the tally, and
the final summary line when the loop was reached. -/
structure MainResult where
  exit_code : Nat
  output_dir_created : Bool
  attempts : List (FsPath × FsPath × ConvResult)
  success_count : Nat
  total_count : Nat
  summary : Option String

/-- The per-file loop of `main` (lines 68 to 72): for each discovered
file, form the output path `public/music / name` and attempt the
conversion. -/
def conv_loop (run : Runner) : List FsPath → List (FsPath × FsPath × ConvResult)
  | [] => []
  | mp3_file :: rest =>
    let output_path : FsPath := { dir := "public/music", name := mp3_file.name }
    (mp3_file, output_path, convert_audio_file run mp3_file output_path) ::
      conv_loop run rest

/-- The success tally accumulated by the loop: the number of attempts
whose conversion returned `True`. -/
def success_count_of (rs : List (FsPath × FsPath × ConvResult)) : Nat :=
  rs.countP (fun r => r.2.2.ok)

/-- Does a file name match the glob pattern `"*.mp3"` used in
`music_dir.glob("*.mp3")` (line 60), i.e. does it end with `.mp3`?
Stated on the character list of the name so that it evaluates inside
the kernel. -/
def matchesMp3 (n : String) : Bool := ".mp3".data.isSuffixOf n.data

namespace ConvertAudio

/-- Embedding of `main()` from `src/convert_audio.py` (lines 49 to 83).
If the `music` directory is missing it exits 1 before creating the
output directory.  Otherwise it creates `public/music`, globs
`music/*.mp3`, exits 1 if no file matches, and otherwise attempts
every file, prints the `Conversion complete: X/Y successful` summary,
and exits 1 exactly when some file failed. -/
def main (env : Env) : MainResult :=
  if env.music_dir_exists = false then
    { exit_code := 1, output_dir_created := false, attempts := [],
      success_count := 0, total_count := 0, summary := none }
  else
    let mp3_files : List FsPath :=
      (env.music_files.filter matchesMp3).map
        (fun n => { dir := "music", name := n })
    if mp3_files.isEmpty then
      { exit_code := 1, output_dir_created := true, attempts := [],
        success_count := 0, total_count := 0, summary := none }
    else
      let attempts := conv_loop env.run mp3_files
      let success_count := success_count_of attempts
      { exit_code := if success_count < mp3_files.length then 1 else 0,
        output_dir_created := true,
        attempts := attempts,
        success_count := success_count,
        total_count := mp3_files.length,
        summary := some ("Conversion complete: " ++ toString success_count
          ++ "/" ++ toString mp3_files.length ++ " successful") }

end ConvertAudio

/-- The failure tally: the number of attempts whose conversion
returned `False`. -/
def failure_count_of (rs : List (FsPath × FsPath × ConvResult)) : Nat :=
  rs.countP (fun r => !r.2.2.ok)

/-- The discovered input paths: `music / name` for each matching file
name. -/
def mp3_paths (env : Env) : List FsPath :=
  (env.music_files.filter matchesMp3).map (fun n => { dir := "music", name := n })

/-- The attempts the loop performs once the two early exits are
passed. -/
def run_attempts (env : Env) : List (FsPath × FsPath × ConvResult) :=
  conv_loop env.run (mp3_paths env)

/-- Concrete environment: two matching files, one stray file, and an
external tool that always exits with status 1. -/
def envAllFail : Env :=
  ⟨true, ["a.mp3", "b.mp3", "notes.txt"], fun _ _ => RunOutcome.completed 1 "boom"⟩

/-- Concrete environment: two matching files and an external tool that
always exits with status 0. -/
def envAllOk : Env :=
  ⟨true, ["a.mp3", "b.mp3"], fun _ _ => RunOutcome.completed 0 "ok"⟩

/-- Concrete environment: one matching file and an external tool that
always exceeds the timeout. -/
def envTimeout : Env :=
  ⟨true, ["a.mp3"], fun _ _ => RunOutcome.timedOut⟩

/-- Concrete environment: two matching files and an unresolvable
external executable. -/
def envNotFound : Env :=
  ⟨true, ["a.mp3", "b.mp3"], fun _ _ => RunOutcome.fileNotFound⟩

/-! ### Helper lemmas -/

theorem conv_loop_length (run : Runner) (fs : List FsPath) :
    (conv_loop run fs).length = fs.length := by
  induction fs with
  | nil => rfl
  | cons f fs ih => simpa [conv_loop] using ih

theorem conv_loop_outputs (run : Runner) (fs : List FsPath) :
    (conv_loop run fs).map (fun a => a.2.1)
      = fs.map (fun f => { dir := "public/music", name := f.name }) := by
  induction fs with
  | nil => rfl
  | cons f fs ih => simp [conv_loop, ih]

theorem success_add_failure (rs : List (FsPath × FsPath × ConvResult)) :
    success_count_of rs + failure_count_of rs = rs.length := by
  induction rs with
  | nil => rfl
  | cons r rs ih =>
    simp only [success_count_of, failure_count_of, List.countP_cons,
      List.length_cons] at ih ⊢
    cases h : r.2.2.ok <;> simp [h] <;> omega

theorem success_count_le (rs : List (FsPath × FsPath × ConvResult)) :
    success_count_of rs ≤ rs.length := by
  have := success_add_failure rs
  omega

/-- Unfolded form of `convert_audio_file` as a case analysis on the
outcome of the single external invocation. -/
theorem convert_ok_iff (run : Runner) (i o : FsPath) :
    (convert_audio_file run i o).ok = true ↔
      ∃ stderr,
        run ["ffmpeg.exe", "-i", i.str, "-ar", "44100", "-ac", "2",
             "-b:a", "192k", "-y", o.str] 60 = RunOutcome.completed 0 stderr := by
  unfold convert_audio_file
  cases h : run ["ffmpeg.exe", "-i", i.str, "-ar", "44100", "-ac", "2",
      "-b:a", "192k", "-y", o.str] 60 with
  | completed rc stderr =>
    by_cases hrc : rc = 0 <;> simp [h, hrc]
  | timedOut => simp [h]
  | fileNotFound => simp [h]
  | otherError e => simp [h]

/-- Characterization of `main` on the branch that reaches the
conversion loop: the directory exists and at least one file matches. -/
theorem main_run_eq (env : Env) (hdir : env.music_dir_exists = true)
    (hne : env.music_files.filter matchesMp3 ≠ []) :
    ConvertAudio.main env =
      { exit_code :=
          if success_count_of (run_attempts env) < (mp3_paths env).length then 1 else 0,
        output_dir_created := true,
        attempts := run_attempts env,
        success_count := success_count_of (run_attempts env),
        total_count := (mp3_paths env).length,
        summary := some ("Conversion complete: "
          ++ toString (success_count_of (run_attempts env))
          ++ "/" ++ toString (mp3_paths env).length ++ " successful") } := by
  cases hL : env.music_files.filter matchesMp3 with
  | nil => exact absurd hL hne
  | cons a as =>
    simp [ConvertAudio.main, mp3_paths, run_attempts, hdir, hL]

theorem conv_loop_success_full (run : Runner)
    (h : ∀ cmd t, ∃ stderr, run cmd t = RunOutcome.completed 0 stderr)
    (fs : List FsPath) :
    success_count_of (conv_loop run fs) = fs.length := by
  induction fs with
  | nil => rfl
  | cons f fs ih =>
    have hok : (convert_audio_file run f { dir := "public/music", name := f.name }).ok
        = true :=
      (convert_ok_iff run f _).2 (h _ 60)
    simp only [conv_loop, success_count_of, List.countP_cons, List.length_cons] at ih ⊢
    simp [hok, ih]

theorem conv_loop_success_none (run : Runner)
    (h : ∀ cmd t, run cmd t = RunOutcome.fileNotFound) (fs : List FsPath) :
    success_count_of (conv_loop run fs) = 0 := by
  induction fs with
  | nil => rfl
  | cons f fs ih =>
    have hnot : (convert_audio_file run f { dir := "public/music", name := f.name }).ok
        = false := by
      simp [convert_audio_file, h]
    simp only [conv_loop, success_count_of, List.countP_cons] at ih ⊢
    simp [hnot, ih]

theorem conv_loop_not_found (run : Runner)
    (h : ∀ cmd t, run cmd t = RunOutcome.fileNotFound) (fs : List FsPath) :
    ∀ a ∈ conv_loop run fs,
      a.2.2 = ConvResult.mk false ["Converting: " ++ a.1.name,
        "  ✗ ffmpeg not found. Make sure ffmpeg.exe is in your PATH or in the current directory"] := by
  induction fs with
  | nil => intro a ha; cases ha
  | cons f fs ih =>
    intro a ha
    simp only [conv_loop, List.mem_cons] at ha
    rcases ha with rfl | ha
    · simp [convert_audio_file, h]
    · exact ih a ha

/-! ### Claims -/

/-- Claim C2: for every run, the tally invariant
`0 ≤ success_count ≤ total_count` holds: the success counter counts at
most one success per discovered file, so it never exceeds the number
of discovered files. -/
theorem claim_C2 (env : Env) :
    (ConvertAudio.main env).success_count ≤ (ConvertAudio.main env).total_count := by
  by_cases hdir : env.music_dir_exists = false
  · simp [ConvertAudio.main, hdir]
  · replace hdir : env.music_dir_exists = true := by
      cases h : env.music_dir_exists
      · exact absurd h hdir
      · rfl
    cases hL : env.music_files.filter matchesMp3 with
    | nil => simp [ConvertAudio.main, hdir, hL]
    | cons a as =>
      simp only [ConvertAudio.main, hdir, hL]
      simp only [List.map_cons, List.isEmpty_cons, if_neg, Bool.false_eq_true,
        if_false, reduceCtorEq, ite_false]
      refine le_trans (success_count_le _) (le_of_eq ?_)
      rw [conv_loop_length]

/-- Claim C3: if the `music` source directory does not exist, the
process exits non-zero, creates no output directory, and attempts zero
conversions. -/
theorem claim_C3 (env : Env) (h : env.music_dir_exists = false) :
    (ConvertAudio.main env).exit_code = 1 ∧
    (ConvertAudio.main env).output_dir_created = false ∧
    (ConvertAudio.main env).attempts = [] := by
  simp [ConvertAudio.main, h]

theorem claim_C3_witness :
    (ConvertAudio.main ⟨false, ["a.mp3"], fun _ _ => RunOutcome.completed 0 ""⟩).exit_code = 1 ∧
    (ConvertAudio.main ⟨false, ["a.mp3"], fun _ _ => RunOutcome.completed 0 ""⟩).output_dir_created = false ∧
    (ConvertAudio.main ⟨false, ["a.mp3"], fun _ _ => RunOutcome.completed 0 ""⟩).attempts = [] :=
  claim_C3 ⟨false, ["a.mp3"], fun _ _ => RunOutcome.completed 0 ""⟩ rfl

/-- Claim C4: if the source directory exists but holds no file whose
name matches `*.mp3`, the process exits non-zero and attempts zero
conversions. -/
theorem claim_C4 (env : Env) (hdir : env.music_dir_exists = true)
    (hempty : env.music_files.filter matchesMp3 = []) :
    (ConvertAudio.main env).exit_code = 1 ∧
    (ConvertAudio.main env).attempts = [] := by
  simp [ConvertAudio.main, hdir, hempty]

theorem claim_C4_witness :
    (ConvertAudio.main ⟨true, ["notes.txt"], fun _ _ => RunOutcome.completed 0 ""⟩).exit_code = 1 ∧
    (ConvertAudio.main ⟨true, ["notes.txt"], fun _ _ => RunOutcome.completed 0 ""⟩).attempts = [] :=
  claim_C4 ⟨true, ["notes.txt"], fun _ _ => RunOutcome.completed 0 ""⟩ rfl (by decide)

/-- Claim C9: when the source directory exists but holds no matching
file, the output directory `public/music` is nevertheless created
before the non-zero exit, because directory creation (line 57) runs
before input discovery (line 60). -/
theorem claim_C9 (env : Env) (hdir : env.music_dir_exists = true)
    (hempty : env.music_files.filter matchesMp3 = []) :
    (ConvertAudio.main env).output_dir_created = true ∧
    (ConvertAudio.main env).exit_code = 1 ∧
    (ConvertAudio.main env).attempts = [] := by
  simp [ConvertAudio.main, hdir, hempty]

theorem claim_C9_witness :
    (ConvertAudio.main ⟨true, ["cover.png"], fun _ _ => RunOutcome.completed 0 ""⟩).output_dir_created = true ∧
    (ConvertAudio.main ⟨true, ["cover.png"], fun _ _ => RunOutcome.completed 0 ""⟩).exit_code = 1 ∧
    (ConvertAudio.main ⟨true, ["cover.png"], fun _ _ => RunOutcome.completed 0 ""⟩).attempts = [] :=
  claim_C9 ⟨true, ["cover.png"], fun _ _ => RunOutcome.completed 0 ""⟩ rfl (by decide)

/-- Claim C1: for a run over a source directory containing N matching
files of which exactly K fail, the driver still attempts all N
conversions, reports a summary containing `<N-K>/N successful`, and
exits non-zero when any file failed. -/
theorem claim_C1 (env : Env) (N K : Nat)
    (hdir : env.music_dir_exists = true)
    (hne : env.music_files.filter matchesMp3 ≠ [])
    (hN : N = (env.music_files.filter matchesMp3).length)
    (hK : K = failure_count_of (ConvertAudio.main env).attempts) :
    (ConvertAudio.main env).attempts.length = N ∧
    (ConvertAudio.main env).summary =
      some ("Conversion complete: " ++ toString (N - K) ++ "/" ++ toString N
        ++ " successful") ∧
    (0 < K → (ConvertAudio.main env).exit_code ≠ 0) := by
  subst hN
  subst hK
  have hmain := main_run_eq env hdir hne
  have hlen : (run_attempts env).length = (mp3_paths env).length := conv_loop_length _ _
  have hmap : (mp3_paths env).length = (env.music_files.filter matchesMp3).length :=
    List.length_map _ _
  have hsf := success_add_failure (run_attempts env)
  have hKval : failure_count_of (ConvertAudio.main env).attempts
      = failure_count_of (run_attempts env) := by rw [hmain]
  rw [hKval, hmain]
  have hkey : (env.music_files.filter matchesMp3).length
      - failure_count_of (run_attempts env) = success_count_of (run_attempts env) := by
    omega
  rw [hkey]
  refine ⟨hlen.trans hmap, ?_, ?_⟩
  · show some ("Conversion complete: " ++ toString (success_count_of (run_attempts env))
      ++ "/" ++ toString (mp3_paths env).length ++ " successful") = _
    rw [hmap]
  · intro hK0
    show (if success_count_of (run_attempts env) < (mp3_paths env).length then 1 else 0) ≠ 0
    rw [if_pos (by omega)]
    decide

theorem claim_C1_witness :
    (ConvertAudio.main envAllFail).attempts.length = 2 ∧
    (ConvertAudio.main envAllFail).summary =
      some ("Conversion complete: " ++ toString (2 - 2) ++ "/" ++ toString 2
        ++ " successful") ∧
    (0 < 2 → (ConvertAudio.main envAllFail).exit_code ≠ 0) :=
  claim_C1 envAllFail 2 2 rfl (by decide) (by decide) (by decide)

/-- Claim C5: when every conversion succeeds, the process exits 0 and
each output path keeps the input file name, placed under
`public/music`. -/
theorem claim_C5 (env : Env)
    (hdir : env.music_dir_exists = true)
    (hne : env.music_files.filter matchesMp3 ≠ [])
    (hall : ∀ cmd t, ∃ stderr, env.run cmd t = RunOutcome.completed 0 stderr) :
    (ConvertAudio.main env).exit_code = 0 ∧
    (ConvertAudio.main env).attempts.map (fun a => a.2.1)
      = (env.music_files.filter matchesMp3).map
          (fun n => { dir := "public/music", name := n }) := by
  rw [main_run_eq env hdir hne]
  have hs : success_count_of (run_attempts env) = (mp3_paths env).length :=
    conv_loop_success_full env.run hall (mp3_paths env)
  constructor
  · show (if success_count_of (run_attempts env) < (mp3_paths env).length then 1 else 0) = 0
    rw [if_neg (by omega)]
  · show (run_attempts env).map (fun a => a.2.1) = _
    unfold run_attempts mp3_paths
    rw [conv_loop_outputs, List.map_map]
    rfl

theorem claim_C5_witness :
    (ConvertAudio.main envAllOk).exit_code = 0 ∧
    (ConvertAudio.main envAllOk).attempts.map (fun a => a.2.1)
      = (envAllOk.music_files.filter matchesMp3).map
          (fun n => { dir := "public/music", name := n }) :=
  claim_C5 envAllOk rfl (by decide) (fun cmd t => ⟨"ok", rfl⟩)

/-- Claim C6: the external tool is invoked as `ffmpeg.exe` with
exactly the fixed argument list (input path, `-ar 44100`, `-ac 2`,
`-b:a 192k`, `-y`, output path); the conversion is a success iff the
exit status is 0, and on any other status the captured error stream is
reported. -/
theorem claim_C6 (run : Runner) (i o : FsPath) (rc : Int) (stderr : String)
    (h : run ["ffmpeg.exe", "-i", i.str, "-ar", "44100", "-ac", "2",
              "-b:a", "192k", "-y", o.str] 60 = RunOutcome.completed rc stderr) :
    ((convert_audio_file run i o).ok = true ↔ rc = 0) ∧
    (rc ≠ 0 →
      ("  ✗ ffmpeg error: " ++ stderr) ∈ (convert_audio_file run i o).log) := by
  by_cases hrc : rc = 0 <;> simp [convert_audio_file, h, hrc]

theorem claim_C6_witness :
    ((convert_audio_file (fun _ _ => RunOutcome.completed 2 "boom")
        ⟨"music", "a.mp3"⟩ ⟨"public/music", "a.mp3"⟩).ok = true ↔ (2 : Int) = 0) ∧
    ((2 : Int) ≠ 0 →
      ("  ✗ ffmpeg error: " ++ "boom") ∈ (convert_audio_file
        (fun _ _ => RunOutcome.completed 2 "boom")
        ⟨"music", "a.mp3"⟩ ⟨"public/music", "a.mp3"⟩).log) :=
  claim_C6 (fun _ _ => RunOutcome.completed 2 "boom")
    ⟨"music", "a.mp3"⟩ ⟨"public/music", "a.mp3"⟩ 2 "boom" rfl

/-- Claim C7: every external invocation is made with the fixed
60-second timeout (the result of a conversion depends only on how the
invoker behaves at timeout 60), a timeout is a failure for that
file, and the run still attempts every discovered file. -/
theorem claim_C7 :
    (∀ r1 r2 : Runner, (∀ cmd, r1 cmd 60 = r2 cmd 60) →
      ∀ i o, convert_audio_file r1 i o = convert_audio_file r2 i o) ∧
    (∀ (run : Runner) (i o : FsPath),
      run ["ffmpeg.exe", "-i", i.str, "-ar", "44100", "-ac", "2",
           "-b:a", "192k", "-y", o.str] 60 = RunOutcome.timedOut →
      (convert_audio_file run i o).ok = false) ∧
    (∀ env : Env, env.music_dir_exists = true →
      (ConvertAudio.main env).attempts.length
        = (env.music_files.filter matchesMp3).length) := by
  refine ⟨?_, ?_, ?_⟩
  · intro r1 r2 hagree i o
    simp only [convert_audio_file]
    rw [hagree]
  · intro run i o h
    simp [convert_audio_file, h]
  · intro env hdir
    by_cases hne : env.music_files.filter matchesMp3 = []
    · simp [ConvertAudio.main, hdir, hne]
    · rw [main_run_eq env hdir hne]
      show (run_attempts env).length = _
      unfold run_attempts mp3_paths
      rw [conv_loop_length, List.length_map]

theorem claim_C7_witness :
    (convert_audio_file (fun _ _ => RunOutcome.timedOut)
        ⟨"music", "a.mp3"⟩ ⟨"public/music", "a.mp3"⟩).ok = false ∧
    (ConvertAudio.main envTimeout).attempts.length
      = (envTimeout.music_files.filter matchesMp3).length :=
  ⟨claim_C7.2.1 (fun _ _ => RunOutcome.timedOut)
      ⟨"music", "a.mp3"⟩ ⟨"public/music", "a.mp3"⟩ rfl,
    claim_C7.2.2 envTimeout rfl⟩

/-- Claim C8: when the external executable is unresolvable for every
invocation, every attempted file fails (failures equal the total
count, successes are zero), and each failure is reported with the
distinct tool-not-found message. -/
theorem claim_C8 (env : Env)
    (hdir : env.music_dir_exists = true)
    (hne : env.music_files.filter matchesMp3 ≠ [])
    (habsent : ∀ cmd t, env.run cmd t = RunOutcome.fileNotFound) :
    failure_count_of (ConvertAudio.main env).attempts
        = (ConvertAudio.main env).total_count ∧
    (ConvertAudio.main env).success_count = 0 ∧
    ∀ a ∈ (ConvertAudio.main env).attempts,
      a.2.2.log = ["Converting: " ++ a.1.name,
        "  ✗ ffmpeg not found. Make sure ffmpeg.exe is in your PATH or in the current directory"] := by
  rw [main_run_eq env hdir hne]
  have h0 : success_count_of (run_attempts env) = 0 :=
    conv_loop_success_none env.run habsent (mp3_paths env)
  have hlen : (run_attempts env).length = (mp3_paths env).length :=
    conv_loop_length _ _
  have hsf := success_add_failure (run_attempts env)
  refine ⟨by simp only []; omega, by simpa using h0, ?_⟩
  intro a ha
  have := conv_loop_not_found env.run habsent (mp3_paths env) a ha
  rw [this]

theorem claim_C8_witness :
    failure_count_of (ConvertAudio.main envNotFound).attempts
        = (ConvertAudio.main envNotFound).total_count ∧
    (ConvertAudio.main envNotFound).success_count = 0 ∧
    ∀ a ∈ (ConvertAudio.main envNotFound).attempts,
      a.2.2.log = ["Converting: " ++ a.1.name,
        "  ✗ ffmpeg not found. Make sure ffmpeg.exe is in your PATH or in the current directory"] :=
  claim_C8 envNotFound rfl (by decide) (fun cmd t => rfl)

/-- Claim C10: `convert_audio_file` is total over per-file errors
(every outcome of the invocation, including timeout, missing
executable, and any other exception, is mapped to a boolean), and it
returns `True` exactly when the external process completed within the
timeout with exit status 0. -/
theorem claim_C10 :
    ∀ (run : Runner) (i o : FsPath),
      (convert_audio_file run i o).ok = true ↔
        ∃ stderr,
          run ["ffmpeg.exe", "-i", i.str, "-ar", "44100", "-ac", "2",
               "-b:a", "192k", "-y", o.str] 60 = RunOutcome.completed 0 stderr :=
  convert_ok_iff
